import Mathlib

/-!
Shallow embedding of `src/check_speedtest.py` (a Nagios/Icinga plugin that runs
`speedtest-cli`, extracts the download/upload throughput from its text output,
compares them against thresholds and emits one status line plus perfdata).

Modelling conventions:
* Python floats are modelled as exact rationals (`ℚ`); every number occurring in
  this development is a terminating decimal, so no rounding questions arise.
* A Python attribute that is either a float or `None` is an `Option ℚ`.
  Python truthiness of such a value (`if self.download_warning:`) is `pyTruthy`:
  `none` and `some 0` are falsy, everything else truthy.
* A Python 3 comparison `a < b` between an optional float and an optional float
  is `pyLt`: it returns the boolean when both operands are floats and raises
  `TypeError` (modelled with `Except.error`) when either operand is `None`,
  exactly as CPython 3 does.
* `sys.exit` deep inside the call chain (`icinga_exit` / `exit_with_error`) is
  modelled by returning the `ExitResult` value that the process exits with.
* Uncaught Python exceptions are the `Except.error` branch; the `__main__`
  catch-all (active when `--debug2` is not given) is `runMain`.
-/

/-! ## Icinga exit conventions (source lines 19-53) -/

def ICINGA_OK : Nat := 0
def ICINGA_WARNING : Nat := 1
def ICINGA_CRITICAL : Nat := 2
def ICINGA_UNKNOWN : Nat := 3

/-- `ICINGA_LABELS.get(level)`: the dict lookup returns `None` for a level
outside 0..3, which `str.format` would render as the text `None`. -/
def icingaLabel : Nat → String
  | 0 => "OK"
  | 1 => "WARNING"
  | 2 => "CRITICAL"
  | 3 => "UNKNOWN"
  | _ => "None"

def SPEEDTEST_CMD : String := "speedtest-cli"

/-- The terminal state of the process: `icinga_exit(level, details, perfdata)`
exits with code `level` after printing one line (see `printedMessage`). -/
structure ExitResult where
  level : Nat
  details : Option String
  perfdata : List String
deriving DecidableEq

/-- `icinga_exit` (source lines 27-46), with the exit recorded as a value. -/
def icinga_exit (level : Nat) (details : Option String) (perfdata : List String) :
    ExitResult :=
  { level := level, details := details, perfdata := perfdata }

/-- The single line printed by `icinga_exit` before exiting. -/
def printedMessage (r : ExitResult) : String :=
  let msg := icingaLabel r.level
  let msg := match r.details with
    | some d => if decide (d ≠ "") then msg ++ " - " ++ d else msg
    | none => msg
  if decide (r.perfdata.length ≠ 0) then
    msg ++ " |" ++ String.intercalate " " r.perfdata
  else msg

/-- `icinga_exit` writes to stdout for OK and to stderr otherwise. -/
def onStdout (r : ExitResult) : Bool := r.level == 0

/-- `exit_with_error` (source lines 48-53). -/
def exitWithError (message : String) : ExitResult :=
  icinga_exit ICINGA_UNKNOWN (some ("ERROR: " ++ message)) []

/-! ## Python value helpers -/

/-- Truthiness of a float-or-None Python value: `None` and `0.0` are falsy. -/
def pyTruthy : Option ℚ → Bool
  | none => false
  | some x => decide (x ≠ 0)

/-- Truthiness of an int-or-None Python value (the `-s`, `--server` argument). -/
def pyTruthyInt : Option Int → Bool
  | none => false
  | some n => decide (n ≠ 0)

/-- A Python exception escaping the modelled code. -/
inductive PyErr where
  | typeError (msg : String)
deriving DecidableEq

/-- `str(e)` for a modelled exception. -/
def pyErrStr : PyErr → String
  | .typeError m => m

def ltNoneFloatMsg : String :=
  "\x27<\x27 not supported between instances of \x27NoneType\x27 and \x27float\x27"

def ltFloatNoneMsg : String :=
  "\x27<\x27 not supported between instances of \x27float\x27 and \x27NoneType\x27"

def ltNoneNoneMsg : String :=
  "\x27<\x27 not supported between instances of \x27NoneType\x27 and \x27NoneType\x27"

/-- Python 3 `a < b` on float-or-None operands: comparing with `None` raises
`TypeError`. -/
def pyLt : Option ℚ → Option ℚ → Except PyErr Bool
  | some a, some b => Except.ok (decide (a < b))
  | none, some _ => Except.error (PyErr.typeError ltNoneFloatMsg)
  | some _, none => Except.error (PyErr.typeError ltFloatNoneMsg)
  | none, none => Except.error (PyErr.typeError ltNoneNoneMsg)

/-! ## Configuration (the attributes set by `_manage_arguments`, source 164-226)

Thresholds are recorded after the `float(...)` conversion: `none` when the
option was not given, `some v` when it was given and converted (a threshold
given as the string `0` converts to `some 0`, which every later truthiness
test treats as absent). -/

structure CheckConfig where
  no_download : Bool
  no_upload : Bool
  always_ok : Bool
  server : Option Int
  download_warning : Option ℚ
  download_critical : Option ℚ
  upload_warning : Option ℚ
  upload_critical : Option ℚ
  download_max : Option ℚ
  upload_max : Option ℚ
deriving DecidableEq

/-- How a run of the argument checks can fail: `configError` is
`exit_with_error` (an UNKNOWN exit), `pyError` is an uncaught exception
(`CheckCommand()` is constructed outside the `__main__` try/except, so a
`pyError` during construction is an unhandled traceback, exit code 1). -/
inductive CheckFailure where
  | configError (msg : String)
  | pyError (e : PyErr)
deriving DecidableEq

/-- `w and c and (w <= c)`: both operands are floats whenever the comparison is
reached, so this check cannot raise. -/
def wcViolation : Option ℚ → Option ℚ → Bool
  | some w, some c => decide (w ≠ 0) && decide (c ≠ 0) && decide (w ≤ c)
  | some _, none => false
  | none, _ => false

/-- The max-level check (source lines 269-291 for download, 281-291 for
upload): guarded only by truthiness of the max itself, so when the max is set
and the corresponding threshold is `None`, `max < None` raises `TypeError`. -/
def maxCheck (mx crit warn : Option ℚ) (msgCrit msgWarn : String) :
    Except CheckFailure Unit :=
  if pyTruthy mx then
    match pyLt mx crit with
    | Except.error e => Except.error (CheckFailure.pyError e)
    | Except.ok true => Except.error (CheckFailure.configError msgCrit)
    | Except.ok false =>
      match pyLt mx warn with
      | Except.error e => Except.error (CheckFailure.pyError e)
      | Except.ok true => Except.error (CheckFailure.configError msgWarn)
      | Except.ok false => Except.ok ()
  else Except.ok ()

/-- The argument checks of `_manage_arguments` (source lines 228-291), run
once at construction, before any external invocation. -/
def manageArguments (cfg : CheckConfig) : Except CheckFailure Unit :=
  if cfg.no_download &&
      (pyTruthy cfg.download_warning || pyTruthy cfg.download_critical ||
        pyTruthy cfg.download_max) then
    Except.error (CheckFailure.configError
      "You must not specify download warning, critical or max levels if --no-download specified!")
  else if cfg.no_upload &&
      (pyTruthy cfg.upload_warning || pyTruthy cfg.upload_critical ||
        pyTruthy cfg.upload_max) then
    Except.error (CheckFailure.configError
      "You must not specify upload warning, critical or max levels if --no-upload specified!")
  else if wcViolation cfg.download_warning cfg.download_critical then
    Except.error (CheckFailure.configError
      "Download warning level must be bigger than download critical level!")
  else if wcViolation cfg.upload_warning cfg.upload_critical then
    Except.error (CheckFailure.configError
      "Upload warning level must be bigger than upload critical level!")
  else
    match maxCheck cfg.download_max cfg.download_critical cfg.download_warning
        "Download max level cannot be lower than download critical level!"
        "Download max level cannot be lower than download warning level!" with
    | Except.error e => Except.error e
    | Except.ok _ =>
      maxCheck cfg.upload_max cfg.upload_critical cfg.upload_warning
        "Upload max level cannot be lower than upload critical level!"
        "Upload max level cannot be lower than upload warning level!"

/-! ## External command composition (`_compose_speedtest_command`, 294-322) -/

/-- An element of the `subprocess.run` argument list: the source appends the
flag strings but appends `self.server` itself, an `int`. -/
inductive PyVal where
  | str (s : String)
  | int (n : Int)
deriving DecidableEq

/-- The argument list built by `_compose_speedtest_command` (source 294-307).
Note `if self.server:` is Python truthiness, so a server id of 0 is treated as
absent, and the id is appended as an integer, not a string. -/
def composeSpeedtestCommand (cfg : CheckConfig) : List PyVal :=
  let command := [PyVal.str SPEEDTEST_CMD]
  let command := if cfg.no_download then command ++ [PyVal.str "--no-download"] else command
  let command := if cfg.no_upload then command ++ [PyVal.str "--no-upload"] else command
  let command :=
    if pyTruthyInt cfg.server then
      command ++ [PyVal.str "--server", PyVal.int (cfg.server.getD 0)]
    else command
  command

/-- `subprocess.run` requires every element of the argument list to be a
string (str/bytes/PathLike); a non-string element makes it raise `TypeError`
before any process is spawned. -/
def subprocessRejects (command : List PyVal) : Bool :=
  command.any fun v => match v with
    | PyVal.str _ => false
    | PyVal.int _ => true

/-! ## Metric extraction (`_parse_output`, source 325-355) -/

/-- Split a string at newline characters (the line structure that the
`re.MULTILINE` anchors `^`/`$` of the source patterns see). -/
def splitLinesAux : List Char → List Char → List String
  | [], acc => [String.mk acc.reverse]
  | c :: rest, acc =>
    if c = '\n' then String.mk acc.reverse :: splitLinesAux rest []
    else splitLinesAux rest (c :: acc)

def splitLines (s : String) : List String := splitLinesAux s.data []

/-- One line against the pattern `^<lead>(.+) Mbit\/s$`: the line must start
with `lead`, end with the 7 characters of the literal suffix, and have at
least one character in between; the greedy group is everything between the
lead and the final suffix. -/
def matchMetricLine (lead line : String) : Option String :=
  let l := line.data
  let p := lead.data
  let suffixChars := (" Mbit/s" : String).data
  if p.isPrefixOf l && suffixChars.isSuffixOf l &&
      decide (p.length + suffixChars.length < l.length) then
    some (String.mk ((l.drop p.length).take (l.length - p.length - suffixChars.length)))
  else none

/-- `re.search` of the anchored multiline pattern: the first matching line, in
string order. -/
def searchMetric (lead : String) (output : String) : Option String :=
  (splitLines output).findSome? (matchMetricLine lead)

def digitsVal (l : List Char) : Nat :=
  l.foldl (fun acc c => acc * 10 + (c.toNat - 48)) 0

def dropWhitespace (l : List Char) : List Char :=
  l.dropWhile fun c => c.isWhitespace

def trimChars (l : List Char) : List Char :=
  dropWhitespace (dropWhitespace l.reverse).reverse

/-- Model of Python's builtin `float()` restricted to optionally signed plain
decimal literals after whitespace stripping (no exponent, infinity or nan
forms — the speedtest output and the failure cases the claims exercise are all
of this shape); any other input is a `ValueError`, i.e. `none`. -/
def parsePyFloat (s : String) : Option ℚ :=
  let t := trimChars s.data
  let su : Bool × List Char :=
    match t with
    | '-' :: r => (true, r)
    | '+' :: r => (false, r)
    | r => (false, r)
  let neg := su.1
  let u := su.2
  if u.all (fun c => c.isDigit || c == '.') && u.any (fun c => c.isDigit) &&
      decide ((u.filter (fun c => c == '.')).length ≤ 1) then
    let ip := u.takeWhile fun c => c != '.'
    let fp := (u.dropWhile fun c => c != '.').drop 1
    let scale := 10 ^ fp.length
    let n : Int := (digitsVal ip * scale + digitsVal fp : Nat)
    some (mkRat (if neg then -n else n) scale)
  else none

/-- `_parse_output` (source 325-355): each metric is extracted inside its own
try/except, so a missing match (`AttributeError` on `.group`) or a failed
`float(...)` (`ValueError`) yields `None` for that metric only; the function
is total and the two extractions are independent. -/
def parseOutput (output : String) : Option ℚ × Option ℚ :=
  let download_speed := Option.bind (searchMetric "Download: " output) parsePyFloat
  let upload_speed := Option.bind (searchMetric "Upload: " output) parsePyFloat
  (download_speed, upload_speed)

/-! ## Output formatting (`_compose_level_string`, `_compose_output_message`,
`_compose_perfdata`, source 358-468) -/

/-- `_compose_level_string` (source 358-383); every call site passes a level
in 0..3 (an out-of-range level would leave `level_string` unbound in the
source). -/
def composeLevelString (level : Nat) (print_ok : Bool)
    (prepend leftDelim rightDelim : String) : String :=
  if !print_ok && level == 0 then ""
  else
    let level_string :=
      if level == 0 then "OK"
      else if level == 1 then "WARNING"
      else if level == 2 then "CRITICAL"
      else "UNKNOWN"
    prepend ++ leftDelim ++ level_string ++ rightDelim

def fracDigitsStr : Nat → Nat → Nat → String
  | _, _, 0 => ""
  | r, d, Nat.succ fuel =>
    let r10 := r * 10
    Nat.repr (r10 / d) ++ (if r10 % d == 0 then "" else fracDigitsStr (r10 % d) d fuel)

/-- `str(x)` for a Python float holding a terminating decimal: integer part,
a dot, then the fraction digits (`50.0`, `55.23`, `0.0`, ...). -/
def floatStr (q : ℚ) : String :=
  let sign := if decide (q.num < 0) then "-" else ""
  let n := q.num.natAbs
  let d := q.den
  sign ++ Nat.repr (n / d) ++ "." ++
    (if n % d == 0 then "0" else fracDigitsStr (n % d) d 30)

/-- `str(x)` for a float-or-None value (`str(None)` is the text `None`). -/
def pyStr : Option ℚ → String
  | none => "None"
  | some q => floatStr q

/-- `_compose_output_message` (source 386-417). Both branches test
`if download_speed:` — the source checks the download speed again on line 403
where the upload message is composed. -/
def composeOutputMessage (download_speed upload_speed : Option ℚ)
    (download_result_level upload_result_level : Nat) : String :=
  let download_speed_msg :=
    if pyTruthy download_speed then
      "Download speed: " ++ pyStr download_speed ++ " Mbit/sec" ++
        composeLevelString download_result_level false " " "[" "]"
    else "No download speed"
  let upload_speed_msg :=
    if pyTruthy download_speed then
      "Upload speed: " ++ pyStr upload_speed ++ " Mbit/sec" ++
        composeLevelString upload_result_level false " " "[" "]"
    else "No upload speed"
  download_speed_msg ++ ", " ++ upload_speed_msg

/-- `_compose_perfdata` (source 420-468). Each guarded element is
`str(x) if x else null_value` (Python truthiness); the fourth element of BOTH
entries is `str(min_value) if max_upload_speed else null_value` — the download
floor is gated on the upload max in the source (line 443). -/
def composePerfdata (download_speed download_warning download_critical
    max_download_speed upload_speed upload_warning upload_critical
    max_upload_speed : Option ℚ) : List String :=
  let null_value := "NaN"
  let min_value : ℚ := 0
  let dvalue :=
    if pyTruthy download_speed then floatStr (download_speed.getD 0) ++ "Mbit/sec"
    else null_value
  let delements := [
    dvalue,
    if pyTruthy download_warning then floatStr (download_warning.getD 0) else null_value,
    if pyTruthy download_critical then floatStr (download_critical.getD 0) else null_value,
    if pyTruthy max_upload_speed then floatStr min_value else null_value,
    if pyTruthy max_download_speed then floatStr (max_download_speed.getD 0) else null_value
  ]
  let dstring := "\x27download_speed\x27=" ++ String.intercalate ";" delements
  let uvalue :=
    if pyTruthy upload_speed then floatStr (upload_speed.getD 0) ++ "Mbit/sec"
    else null_value
  let uelements := [
    uvalue,
    if pyTruthy upload_warning then floatStr (upload_warning.getD 0) else null_value,
    if pyTruthy upload_critical then floatStr (upload_critical.getD 0) else null_value,
    if pyTruthy max_upload_speed then floatStr min_value else null_value,
    if pyTruthy max_upload_speed then floatStr (max_upload_speed.getD 0) else null_value
  ]
  let ustring := "\x27upload_speed\x27=" ++ String.intercalate ";" uelements
  [dstring, ustring]

/-! ## Threshold evaluation (`_parse_results`, source 471-537) -/

/-- One source check `threshold and speed < threshold`: the left operand only
guards truthiness of the threshold, so when the threshold is truthy and the
speed is `None` the comparison raises `TypeError`. -/
def thresholdBreach (threshold speed : Option ℚ) : Except PyErr Bool :=
  if pyTruthy threshold then pyLt speed threshold else Except.ok false

/-- The four sequential level assignments of `_parse_results` (source
484-514), as a function of the four breach booleans; each shadowing `let`
mirrors one mutation. -/
def evalLevelsCore (bdw buw bdc buc : Bool) : Nat × Nat × Nat :=
  let exit_level : Nat := 0
  let download_level : Nat := 0
  let upload_level : Nat := 0
  let edl := if bdw then ((1 : Nat), (1 : Nat)) else (exit_level, download_level)
  let exit_level := edl.1
  let download_level := edl.2
  let eul := if buw then ((1 : Nat), (1 : Nat)) else (exit_level, upload_level)
  let exit_level := eul.1
  let upload_level := eul.2
  let edl2 := if bdc then ((2 : Nat), (2 : Nat)) else (exit_level, download_level)
  let exit_level := edl2.1
  let download_level := edl2.2
  let eul2 := if buc then ((2 : Nat), (2 : Nat)) else (exit_level, upload_level)
  let exit_level := eul2.1
  let upload_level := eul2.2
  (exit_level, download_level, upload_level)

/-- The threshold-evaluation block of `_parse_results` (source 483-514):
skipped entirely under `--always-ok`; otherwise the four checks run in the
fixed source order (download warning, upload warning, download critical,
upload critical) and any comparison that raises aborts the block. Returns
`(exit_level, download_level, upload_level)`. -/
def evalLevels (cfg : CheckConfig) (download_speed upload_speed : Option ℚ) :
    Except PyErr (Nat × Nat × Nat) :=
  if cfg.always_ok then Except.ok (0, 0, 0)
  else
    match thresholdBreach cfg.download_warning download_speed with
    | Except.error e => Except.error e
    | Except.ok bdw =>
      match thresholdBreach cfg.upload_warning upload_speed with
      | Except.error e => Except.error e
      | Except.ok buw =>
        match thresholdBreach cfg.download_critical download_speed with
        | Except.error e => Except.error e
        | Except.ok bdc =>
          match thresholdBreach cfg.upload_critical upload_speed with
          | Except.error e => Except.error e
          | Except.ok buc => Except.ok (evalLevelsCore bdw buw bdc buc)

/-- `_parse_results` (source 471-537): the both-absent gate first, then
threshold evaluation, then message and perfdata composition and the final
`icinga_exit`. -/
def parseResults (cfg : CheckConfig) (download_speed upload_speed : Option ℚ) :
    Except PyErr ExitResult :=
  if !pyTruthy download_speed && !pyTruthy upload_speed then
    Except.ok (exitWithError "No download and upload speed recognised")
  else
    match evalLevels cfg download_speed upload_speed with
    | Except.error e => Except.error e
    | Except.ok (exit_level, download_level, upload_level) =>
      Except.ok (icinga_exit exit_level
        (some (composeOutputMessage download_speed upload_speed
          download_level upload_level))
        (composePerfdata download_speed cfg.download_warning cfg.download_critical
          cfg.download_max upload_speed cfg.upload_warning cfg.upload_critical
          cfg.upload_max))

/-- `handle` from the parse step on (source 540-552), for a given captured
output text. -/
def handleParsed (cfg : CheckConfig) (output : String) : Except PyErr ExitResult :=
  let speeds := parseOutput output
  parseResults cfg speeds.1 speeds.2

/-- The `__main__` boundary without `--debug2` (source 560-567): any exception
from `handle` is converted to an UNKNOWN exit carrying `str(e)`. -/
def runMain (cfg : CheckConfig) (output : String) : ExitResult :=
  match handleParsed cfg output with
  | Except.ok r => r
  | Except.error e => exitWithError (pyErrStr e)

/-! ## Shared lemmas about the embedded functions -/

theorem thresholdBreach_present (thr : Option ℚ) (d : ℚ) :
    ∃ b, thresholdBreach thr (some d) = Except.ok b := by
  unfold thresholdBreach
  by_cases h : pyTruthy thr = true
  · rw [if_pos h]
    cases thr with
    | none => simp [pyTruthy] at h
    | some x => exact ⟨decide (d < x), rfl⟩
  · rw [if_neg h]
    exact ⟨false, rfl⟩

theorem evalLevelsCore_fst_eq_max (b1 b2 b3 b4 : Bool) :
    (evalLevelsCore b1 b2 b3 b4).1 =
      max (evalLevelsCore b1 b2 b3 b4).2.1 (evalLevelsCore b1 b2 b3 b4).2.2 := by
  cases b1 <;> cases b2 <;> cases b3 <;> cases b4 <;> rfl

theorem evalLevelsCore_crit_download (b1 b2 b4 : Bool) :
    (evalLevelsCore b1 b2 true b4).2.1 = 2 := by
  cases b1 <;> cases b2 <;> cases b4 <;> rfl

theorem evalLevelsCore_noupload (b1 b3 : Bool) :
    evalLevelsCore b1 false b3 false =
      ((evalLevelsCore b1 false b3 false).2.1, (evalLevelsCore b1 false b3 false).2.1, 0) := by
  cases b1 <;> cases b3 <;> rfl

theorem evalLevels_ok_core (cfg : CheckConfig) (ds us : Option ℚ) (v : Nat × Nat × Nat)
    (h : evalLevels cfg ds us = Except.ok v) :
    ∃ b1 b2 b3 b4, v = evalLevelsCore b1 b2 b3 b4 := by
  unfold evalLevels at h
  split at h
  · injection h with h2
    exact ⟨false, false, false, false, h2.symm⟩
  · repeat' split at h
    all_goals first
      | exact Except.noConfusion h
      | (injection h with h2; exact ⟨_, _, _, _, h2.symm⟩)

theorem evalLevels_eq (cfg : CheckConfig) (ds us : Option ℚ)
    (hak : cfg.always_ok = false) (b1 b2 b3 b4 : Bool)
    (h1 : thresholdBreach cfg.download_warning ds = Except.ok b1)
    (h2 : thresholdBreach cfg.upload_warning us = Except.ok b2)
    (h3 : thresholdBreach cfg.download_critical ds = Except.ok b3)
    (h4 : thresholdBreach cfg.upload_critical us = Except.ok b4) :
    evalLevels cfg ds us = Except.ok (evalLevelsCore b1 b2 b3 b4) := by
  unfold evalLevels
  rw [if_neg (by simp [hak])]
  simp only [h1, h2, h3, h4]

theorem parseResults_of_evalLevels (cfg : CheckConfig) (ds us : Option ℚ)
    (e dl ul : Nat) (hgate : (!pyTruthy ds && !pyTruthy us) = false)
    (h : evalLevels cfg ds us = Except.ok (e, dl, ul)) :
    parseResults cfg ds us = Except.ok (icinga_exit e
      (some (composeOutputMessage ds us dl ul))
      (composePerfdata ds cfg.download_warning cfg.download_critical cfg.download_max
        us cfg.upload_warning cfg.upload_critical cfg.upload_max)) := by
  unfold parseResults
  rw [if_neg (by simp [hgate])]
  simp only [h]

theorem parseResults_of_evalLevels_error (cfg : CheckConfig) (ds us : Option ℚ)
    (e : PyErr) (hgate : (!pyTruthy ds && !pyTruthy us) = false)
    (h : evalLevels cfg ds us = Except.error e) :
    parseResults cfg ds us = Except.error e := by
  unfold parseResults
  rw [if_neg (by simp [hgate])]
  simp only [h]

/-! ## Concrete configurations used by the claim theorems -/

/-- The configuration with no options given. -/
def cfgDefault : CheckConfig :=
  { no_download := false, no_upload := false, always_ok := false, server := none,
    download_warning := none, download_critical := none,
    upload_warning := none, upload_critical := none,
    download_max := none, upload_max := none }

/-- `-w 10 -c 2` (download thresholds only). -/
def cfgC2 : CheckConfig :=
  { no_download := false, no_upload := false, always_ok := false, server := none,
    download_warning := some 10, download_critical := some 2,
    upload_warning := none, upload_critical := none,
    download_max := none, upload_max := none }

/-- `-W 10` (an upload warning threshold only). -/
def cfgC3 : CheckConfig :=
  { no_download := false, no_upload := false, always_ok := false, server := none,
    download_warning := none, download_critical := none,
    upload_warning := some 10, upload_critical := none,
    download_max := none, upload_max := none }

/-- `-C 1` (an upload critical threshold only). -/
def cfgC3c : CheckConfig :=
  { no_download := false, no_upload := false, always_ok := false, server := none,
    download_warning := none, download_critical := none,
    upload_warning := none, upload_critical := some 1,
    download_max := none, upload_max := none }

/-- `-m 100` (a download max with no download thresholds). -/
def cfgC4 : CheckConfig :=
  { no_download := false, no_upload := false, always_ok := false, server := none,
    download_warning := none, download_critical := none,
    upload_warning := none, upload_critical := none,
    download_max := some 100, upload_max := none }

/-- `-w 10 -c 2 -m 100` (download thresholds and a consistent download max). -/
def cfgC4w : CheckConfig :=
  { no_download := false, no_upload := false, always_ok := false, server := none,
    download_warning := some 10, download_critical := some 2,
    upload_warning := none, upload_critical := none,
    download_max := some 100, upload_max := none }

/-- `-c 2 -m 100` (a download critical and max, no download warning). -/
def cfgC4b : CheckConfig :=
  { no_download := false, no_upload := false, always_ok := false, server := none,
    download_warning := none, download_critical := some 2,
    upload_warning := none, upload_critical := none,
    download_max := some 100, upload_max := none }

/-- `-M 100` (an upload max with no upload thresholds). -/
def cfgC4u : CheckConfig :=
  { no_download := false, no_upload := false, always_ok := false, server := none,
    download_warning := none, download_critical := none,
    upload_warning := none, upload_critical := none,
    download_max := none, upload_max := some 100 }

/-- `-s 1234` (a server id only). -/
def cfgServer1234 : CheckConfig :=
  { no_download := false, no_upload := false, always_ok := false, server := some 1234,
    download_warning := none, download_critical := none,
    upload_warning := none, upload_critical := none,
    download_max := none, upload_max := none }

/-- `--no-download --no-upload` and no server id. -/
def cfgSkipBoth : CheckConfig :=
  { no_download := true, no_upload := true, always_ok := false, server := none,
    download_warning := none, download_critical := none,
    upload_warning := none, upload_critical := none,
    download_max := none, upload_max := none }

/-- `-w 10 -c 2 -W 5 -C 1` (all four thresholds). -/
def cfgC9 : CheckConfig :=
  { no_download := false, no_upload := false, always_ok := false, server := none,
    download_warning := some 10, download_critical := some 2,
    upload_warning := some 5, upload_critical := some 1,
    download_max := none, upload_max := none }

/-! ## Claim theorems -/

/-- C1: when both the download and the upload metric are absent after
extraction, `_parse_results` terminates the run immediately with the UNKNOWN
level (exit code 3), with no performance data and no per-direction status,
regardless of the configured thresholds (the quantification over `cfg` shows
no threshold comparison is evaluated: the same exit results even for
configurations whose comparisons would raise). -/
theorem c1_both_absent_exits_unknown (cfg : CheckConfig) :
    parseResults cfg none none =
      Except.ok (exitWithError "No download and upload speed recognised")
    ∧ (exitWithError "No download and upload speed recognised").level = ICINGA_UNKNOWN
    ∧ (exitWithError "No download and upload speed recognised").perfdata = [] :=
  ⟨rfl, rfl, rfl⟩

/-- C2: whenever the threshold-evaluation block completes with exit level `e`,
download level `dl` and upload level `ul`, the overall exit level equals
`max dl ul`; and when a present download speed is strictly below both its
(set, nonzero) warning and critical thresholds, the download level is
CRITICAL (2): the critical check overrides the earlier warning check. -/
theorem c2_exit_level_eq_max (cfg : CheckConfig) (ds us : Option ℚ) (e dl ul : Nat)
    (h : evalLevels cfg ds us = Except.ok (e, dl, ul)) :
    e = max dl ul
    ∧ (∀ d w c, ds = some d → cfg.download_warning = some w →
        cfg.download_critical = some c → w ≠ 0 → c ≠ 0 → d < w → d < c →
        cfg.always_ok = false → dl = 2) := by
  constructor
  · obtain ⟨b1, b2, b3, b4, hv⟩ := evalLevels_ok_core cfg ds us (e, dl, ul) h
    have he : e = (evalLevelsCore b1 b2 b3 b4).1 := congrArg Prod.fst hv
    have hdl : dl = (evalLevelsCore b1 b2 b3 b4).2.1 := congrArg (fun p => p.2.1) hv
    have hul : ul = (evalLevelsCore b1 b2 b3 b4).2.2 := congrArg (fun p => p.2.2) hv
    rw [he, hdl, hul]
    exact evalLevelsCore_fst_eq_max b1 b2 b3 b4
  · intro d w c hds hdw hdc hw0 hc0 hdltw hdltc hak
    subst hds
    have hcond : ¬ (cfg.always_ok = true) := by simp [hak]
    have e1 : thresholdBreach cfg.download_warning (some d) = Except.ok true := by
      rw [hdw]
      unfold thresholdBreach
      rw [if_pos (by simp [pyTruthy, hw0])]
      simp [pyLt, hdltw]
    have e3 : thresholdBreach cfg.download_critical (some d) = Except.ok true := by
      rw [hdc]
      unfold thresholdBreach
      rw [if_pos (by simp [pyTruthy, hc0])]
      simp [pyLt, hdltc]
    unfold evalLevels at h
    rw [if_neg hcond] at h
    simp only [e1, e3] at h
    cases hu1 : thresholdBreach cfg.upload_warning us with
    | error e' =>
      simp only [hu1] at h
      exact Except.noConfusion h
    | ok b2 =>
      simp only [hu1] at h
      cases hu2 : thresholdBreach cfg.upload_critical us with
      | error e' =>
        simp only [hu2] at h
        exact Except.noConfusion h
      | ok b4 =>
        simp only [hu2] at h
        injection h with h2
        have hdl : dl = (evalLevelsCore true b2 true b4).2.1 :=
          congrArg (fun p => p.2.1) h2.symm
        rw [hdl]
        exact evalLevelsCore_crit_download true b2 b4

/-- Witness for C2 at `-w 10 -c 2` with download 1.0, upload 5.0: the exit
level 2 is the max of the direction levels (2, 0), and the download level is
CRITICAL. -/
theorem c2_exit_level_eq_max_witness : (2 : Nat) = max 2 0 ∧ (2 : Nat) = 2 := by
  have h := c2_exit_level_eq_max cfgC2 (some 1) (some 5) 2 2 0 rfl
  exact ⟨h.1, h.2 1 10 2 rfl rfl rfl (by norm_num) (by norm_num) (by norm_num)
    (by norm_num) rfl⟩

/-- Counterexample for C3: with only `-W 10` configured and a run where the
download metric is present (50.0) but the upload metric is absent, the
threshold comparison against the absent upload value is NOT skipped: it
raises a `TypeError`, so the run does not complete with a status line — the
top-level handler converts the exception into an UNKNOWN error exit. -/
theorem c3_absent_comparison_cex :
    parseResults cfgC3 (some 50) none = Except.error (PyErr.typeError ltNoneFloatMsg)
    ∧ runMain cfgC3 "Download: 50.0 Mbit/s" = exitWithError ltNoneFloatMsg
    ∧ (exitWithError ltNoneFloatMsg).level = ICINGA_UNKNOWN :=
  ⟨rfl, rfl, rfl⟩

/-- C3 (amended): with exactly the download metric present, a comparison is
skipped only when the threshold for the absent upload direction is not set
(not truthy): then the run completes with a status line whose exit level is
the download level alone, with upload level 0. When a truthy upload threshold
— warning or critical — IS configured (and `--always-ok` is not set), the
comparison against the absent upload value raises a `TypeError` and
`_parse_results` aborts; the `__main__` handler then reports UNKNOWN. -/
theorem c3_absent_comparison_amended (cfg : CheckConfig) (d : ℚ) (hd : d ≠ 0) :
    ((pyTruthy cfg.upload_warning = false ∧ pyTruthy cfg.upload_critical = false) →
      ∃ dl : Nat, evalLevels cfg (some d) none = Except.ok (dl, dl, 0) ∧
        parseResults cfg (some d) none = Except.ok (icinga_exit dl
          (some (composeOutputMessage (some d) none dl 0))
          (composePerfdata (some d) cfg.download_warning cfg.download_critical
            cfg.download_max none cfg.upload_warning cfg.upload_critical
            cfg.upload_max)))
    ∧ ((pyTruthy cfg.upload_warning = true ∨ pyTruthy cfg.upload_critical = true) →
      cfg.always_ok = false →
      parseResults cfg (some d) none = Except.error (PyErr.typeError ltNoneFloatMsg)) := by
  have hgate : (!pyTruthy (some d) && !pyTruthy none) = false := by
    simp [pyTruthy, hd]
  constructor
  · rintro ⟨h1, h2⟩
    have htu1 : thresholdBreach cfg.upload_warning none = Except.ok false := by
      unfold thresholdBreach
      rw [if_neg (by simp [h1])]
    have htu2 : thresholdBreach cfg.upload_critical none = Except.ok false := by
      unfold thresholdBreach
      rw [if_neg (by simp [h2])]
    by_cases hak : cfg.always_ok = true
    · refine ⟨0, ?_, ?_⟩
      · unfold evalLevels
        rw [if_pos hak]
      · exact parseResults_of_evalLevels cfg (some d) none 0 0 0 hgate
          (by unfold evalLevels; rw [if_pos hak])
    · have hakf : cfg.always_ok = false := by
        cases hcase : cfg.always_ok with
        | false => rfl
        | true => exact absurd hcase hak
      obtain ⟨b1, hb1⟩ := thresholdBreach_present cfg.download_warning d
      obtain ⟨b3, hb3⟩ := thresholdBreach_present cfg.download_critical d
      have hev : evalLevels cfg (some d) none =
          Except.ok (evalLevelsCore b1 false b3 false) :=
        evalLevels_eq cfg (some d) none hakf b1 false b3 false hb1 htu1 hb3 htu2
      refine ⟨(evalLevelsCore b1 false b3 false).2.1, ?_, ?_⟩
      · rw [hev, evalLevelsCore_noupload b1 b3]
      · exact parseResults_of_evalLevels cfg (some d) none _ _ _ hgate
          (by rw [hev, evalLevelsCore_noupload b1 b3])
  · intro hw hak
    obtain ⟨b1, hb1⟩ := thresholdBreach_present cfg.download_warning d
    by_cases hu : pyTruthy cfg.upload_warning = true
    · cases huw : cfg.upload_warning with
      | none =>
        rw [huw] at hu
        simp [pyTruthy] at hu
      | some x =>
        have htu1 : thresholdBreach cfg.upload_warning none =
            Except.error (PyErr.typeError ltNoneFloatMsg) := by
          unfold thresholdBreach
          rw [if_pos hu, huw]
          rfl
        have hev : evalLevels cfg (some d) none =
            Except.error (PyErr.typeError ltNoneFloatMsg) := by
          unfold evalLevels
          rw [if_neg (by simp [hak])]
          simp only [hb1, htu1]
        exact parseResults_of_evalLevels_error cfg (some d) none _ hgate hev
    · have hu2 : pyTruthy cfg.upload_critical = true := hw.resolve_left hu
      have hufalse : pyTruthy cfg.upload_warning = false := by
        cases hcase : pyTruthy cfg.upload_warning with
        | false => rfl
        | true => exact absurd hcase hu
      have htu1 : thresholdBreach cfg.upload_warning none = Except.ok false := by
        unfold thresholdBreach
        rw [if_neg (by simp [hufalse])]
      obtain ⟨b3, hb3⟩ := thresholdBreach_present cfg.download_critical d
      cases hucv : cfg.upload_critical with
      | none =>
        rw [hucv] at hu2
        simp [pyTruthy] at hu2
      | some x =>
        have htu2 : thresholdBreach cfg.upload_critical none =
            Except.error (PyErr.typeError ltNoneFloatMsg) := by
          unfold thresholdBreach
          rw [if_pos hu2, hucv]
          rfl
        have hev : evalLevels cfg (some d) none =
            Except.error (PyErr.typeError ltNoneFloatMsg) := by
          unfold evalLevels
          rw [if_neg (by simp [hak])]
          simp only [hb1, htu1, hb3, htu2]
        exact parseResults_of_evalLevels_error cfg (some d) none _ hgate hev

/-- Witness for C3 (amended) at `-W 10` (upload warning only) and at `-C 1`
(upload critical only), each with download 50.0 present and upload absent:
both configurations make the run abort with the `TypeError`. -/
theorem c3_absent_comparison_witness :
    parseResults cfgC3 (some 50) none = Except.error (PyErr.typeError ltNoneFloatMsg)
    ∧ parseResults cfgC3c (some 50) none =
      Except.error (PyErr.typeError ltNoneFloatMsg) :=
  ⟨(c3_absent_comparison_amended cfgC3 50 (by norm_num)).2 (Or.inl rfl) rfl,
   (c3_absent_comparison_amended cfgC3c 50 (by norm_num)).2 (Or.inr rfl) rfl⟩

/-- Counterexample for C4: with `-m 100` and no download thresholds set, the
claim predicts that construction succeeds; instead the check
`self.download_max < self.download_critical` compares a float with `None`,
raising a `TypeError` — and since `CheckCommand()` is constructed outside the
`__main__` try/except, this is an unhandled exception, not an UNKNOWN
configuration error. -/
theorem c4_max_without_thresholds_cex :
    manageArguments cfgC4 =
      Except.error (CheckFailure.pyError (PyErr.typeError ltFloatNoneMsg)) :=
  rfl

/-- A max that is not truthy (absent or 0.0) skips the whole check. -/
theorem maxCheck_skip (mx crit warn : Option ℚ) (msgCrit msgWarn : String)
    (h : pyTruthy mx = false) :
    maxCheck mx crit warn msgCrit msgWarn = Except.ok () := by
  unfold maxCheck
  rw [if_neg (by simp [h])]

/-- A truthy max with an absent critical threshold raises at the first
comparison (source line 271 and line 283). -/
theorem maxCheck_crit_none (mx : ℚ) (hmx0 : mx ≠ 0) (warn : Option ℚ)
    (msgCrit msgWarn : String) :
    maxCheck (some mx) none warn msgCrit msgWarn =
      Except.error (CheckFailure.pyError (PyErr.typeError ltFloatNoneMsg)) := by
  unfold maxCheck
  rw [if_pos (by simp [pyTruthy, hmx0])]
  rfl

/-- A truthy max below a set critical threshold is a configuration error. -/
theorem maxCheck_crit_lt (mx c : ℚ) (hmx0 : mx ≠ 0) (h : mx < c)
    (warn : Option ℚ) (msgCrit msgWarn : String) :
    maxCheck (some mx) (some c) warn msgCrit msgWarn =
      Except.error (CheckFailure.configError msgCrit) := by
  unfold maxCheck
  rw [if_pos (by simp [pyTruthy, hmx0])]
  rw [show pyLt (some mx) (some c) = Except.ok true from by simp [pyLt, h]]

/-- A truthy max passing the critical comparison but with an absent warning
threshold raises at the second comparison (source line 276 and line 288). -/
theorem maxCheck_warn_none (mx c : ℚ) (hmx0 : mx ≠ 0) (h : ¬ mx < c)
    (msgCrit msgWarn : String) :
    maxCheck (some mx) (some c) none msgCrit msgWarn =
      Except.error (CheckFailure.pyError (PyErr.typeError ltFloatNoneMsg)) := by
  unfold maxCheck
  rw [if_pos (by simp [pyTruthy, hmx0])]
  rw [show pyLt (some mx) (some c) = Except.ok false from by simp [pyLt, h]]
  rfl

/-- A truthy max passing the critical comparison but below a set warning
threshold is a configuration error. -/
theorem maxCheck_warn_lt (mx c w : ℚ) (hmx0 : mx ≠ 0) (h1 : ¬ mx < c)
    (h2 : mx < w) (msgCrit msgWarn : String) :
    maxCheck (some mx) (some c) (some w) msgCrit msgWarn =
      Except.error (CheckFailure.configError msgWarn) := by
  unfold maxCheck
  rw [if_pos (by simp [pyTruthy, hmx0])]
  rw [show pyLt (some mx) (some c) = Except.ok false from by simp [pyLt, h1]]
  rw [show pyLt (some mx) (some w) = Except.ok true from by simp [pyLt, h2]]

/-- A truthy max at or above both set thresholds passes the check. -/
theorem maxCheck_pass (mx c w : ℚ) (hmx0 : mx ≠ 0) (h1 : ¬ mx < c)
    (h2 : ¬ mx < w) (msgCrit msgWarn : String) :
    maxCheck (some mx) (some c) (some w) msgCrit msgWarn = Except.ok () := by
  unfold maxCheck
  rw [if_pos (by simp [pyTruthy, hmx0])]
  rw [show pyLt (some mx) (some c) = Except.ok false from by simp [pyLt, h1]]
  rw [show pyLt (some mx) (some w) = Except.ok false from by simp [pyLt, h2]]

/-- Once the no-download, no-upload and warning-above-critical checks pass,
`_manage_arguments` reduces to the download max check followed by the upload
max check (source lines 269-291). -/
theorem manageArguments_maxPhase (cfg : CheckConfig)
    (hnd : cfg.no_download = false) (hnu : cfg.no_upload = false)
    (hwc1 : wcViolation cfg.download_warning cfg.download_critical = false)
    (hwc2 : wcViolation cfg.upload_warning cfg.upload_critical = false) :
    manageArguments cfg =
      (match maxCheck cfg.download_max cfg.download_critical cfg.download_warning
          "Download max level cannot be lower than download critical level!"
          "Download max level cannot be lower than download warning level!" with
      | Except.error e => Except.error e
      | Except.ok _ =>
        maxCheck cfg.upload_max cfg.upload_critical cfg.upload_warning
          "Upload max level cannot be lower than upload critical level!"
          "Upload max level cannot be lower than upload warning level!") := by
  unfold manageArguments
  rw [if_neg (by simp [hnd]), if_neg (by simp [hnu]), if_neg (by simp [hwc1]),
    if_neg (by simp [hwc2])]

/-- C4 (amended): once the earlier argument checks pass, validation is the
download max check followed by the upload max check, and for each direction
with a truthy max: a set critical threshold above the max is a configuration
error (UNKNOWN, checked first); with the critical acceptable, a set warning
threshold above the max is a configuration error; an ABSENT critical
threshold — or an absent warning threshold reached after an acceptable
critical — makes the comparison with `None` raise a `TypeError` (an unhandled
exception, since construction happens outside the try/except) instead of
letting construction succeed; and a direction whose max is not truthy imposes
no constraint. The first block covers maxes not set, the second the download
direction, the third the upload direction (reached when the download max
check passes). -/
theorem c4_max_validation_amended (cfg : CheckConfig)
    (hnd : cfg.no_download = false) (hnu : cfg.no_upload = false)
    (hwc1 : wcViolation cfg.download_warning cfg.download_critical = false)
    (hwc2 : wcViolation cfg.upload_warning cfg.upload_critical = false) :
    (pyTruthy cfg.download_max = false → pyTruthy cfg.upload_max = false →
      manageArguments cfg = Except.ok ())
    ∧ (∀ mx : ℚ, cfg.download_max = some mx → mx ≠ 0 →
      (cfg.download_critical = none →
        manageArguments cfg =
          Except.error (CheckFailure.pyError (PyErr.typeError ltFloatNoneMsg)))
      ∧ (∀ c, cfg.download_critical = some c →
        (mx < c → manageArguments cfg = Except.error (CheckFailure.configError
          "Download max level cannot be lower than download critical level!"))
        ∧ (¬ mx < c → cfg.download_warning = none →
          manageArguments cfg =
            Except.error (CheckFailure.pyError (PyErr.typeError ltFloatNoneMsg)))
        ∧ (∀ w, cfg.download_warning = some w → ¬ mx < c →
          (mx < w → manageArguments cfg = Except.error (CheckFailure.configError
            "Download max level cannot be lower than download warning level!"))
          ∧ (¬ mx < w → manageArguments cfg =
            maxCheck cfg.upload_max cfg.upload_critical cfg.upload_warning
              "Upload max level cannot be lower than upload critical level!"
              "Upload max level cannot be lower than upload warning level!"))))
    ∧ (maxCheck cfg.download_max cfg.download_critical cfg.download_warning
        "Download max level cannot be lower than download critical level!"
        "Download max level cannot be lower than download warning level!" =
          Except.ok () →
      ∀ mx : ℚ, cfg.upload_max = some mx → mx ≠ 0 →
      (cfg.upload_critical = none →
        manageArguments cfg =
          Except.error (CheckFailure.pyError (PyErr.typeError ltFloatNoneMsg)))
      ∧ (∀ c, cfg.upload_critical = some c →
        (mx < c → manageArguments cfg = Except.error (CheckFailure.configError
          "Upload max level cannot be lower than upload critical level!"))
        ∧ (¬ mx < c → cfg.upload_warning = none →
          manageArguments cfg =
            Except.error (CheckFailure.pyError (PyErr.typeError ltFloatNoneMsg)))
        ∧ (∀ w, cfg.upload_warning = some w → ¬ mx < c →
          (mx < w → manageArguments cfg = Except.error (CheckFailure.configError
            "Upload max level cannot be lower than upload warning level!"))
          ∧ (¬ mx < w → manageArguments cfg = Except.ok ())))) := by
  have hred := manageArguments_maxPhase cfg hnd hnu hwc1 hwc2
  refine ⟨?_, ?_, ?_⟩
  · intro hdm hum2
    rw [hred, maxCheck_skip _ _ _ _ _ hdm]
    exact maxCheck_skip _ _ _ _ _ hum2
  · intro mx hdm hmx0
    refine ⟨?_, ?_⟩
    · intro hcnone
      rw [hred, hdm, hcnone, maxCheck_crit_none mx hmx0]
    · intro c hcsome
      refine ⟨?_, ?_, ?_⟩
      · intro hlt
        rw [hred, hdm, hcsome, maxCheck_crit_lt mx c hmx0 hlt]
      · intro hge hwnone
        rw [hred, hdm, hcsome, hwnone, maxCheck_warn_none mx c hmx0 hge]
      · intro w hwsome hge
        refine ⟨?_, ?_⟩
        · intro hltw
          rw [hred, hdm, hcsome, hwsome, maxCheck_warn_lt mx c w hmx0 hge hltw]
        · intro hgew
          rw [hred, hdm, hcsome, hwsome, maxCheck_pass mx c w hmx0 hge hgew]
  · intro hdok mx hum2 hmx0
    have hred2 : manageArguments cfg =
        maxCheck cfg.upload_max cfg.upload_critical cfg.upload_warning
          "Upload max level cannot be lower than upload critical level!"
          "Upload max level cannot be lower than upload warning level!" := by
      rw [hred, hdok]
    refine ⟨?_, ?_⟩
    · intro hcnone
      rw [hred2, hum2, hcnone, maxCheck_crit_none mx hmx0]
    · intro c hcsome
      refine ⟨?_, ?_, ?_⟩
      · intro hlt
        rw [hred2, hum2, hcsome, maxCheck_crit_lt mx c hmx0 hlt]
      · intro hge hwnone
        rw [hred2, hum2, hcsome, hwnone, maxCheck_warn_none mx c hmx0 hge]
      · intro w hwsome hge
        refine ⟨?_, ?_⟩
        · intro hltw
          rw [hred2, hum2, hcsome, hwsome, maxCheck_warn_lt mx c w hmx0 hge hltw]
        · intro hgew
          rw [hred2, hum2, hcsome, hwsome, maxCheck_pass mx c w hmx0 hge hgew]

/-- Witness for C4 (amended): at `-w 10 -c 2 -m 100` construction passes the
max check; at `-c 2 -m 100` (warning absent) construction aborts with the
`TypeError`; at `-M 100` (upload max, no upload thresholds) the upload-side
check aborts with the `TypeError` as well. -/
theorem c4_max_validation_witness :
    manageArguments cfgC4w = Except.ok ()
    ∧ manageArguments cfgC4b =
      Except.error (CheckFailure.pyError (PyErr.typeError ltFloatNoneMsg))
    ∧ manageArguments cfgC4u =
      Except.error (CheckFailure.pyError (PyErr.typeError ltFloatNoneMsg)) := by
  refine ⟨?_, ?_, ?_⟩
  · have h := c4_max_validation_amended cfgC4w rfl rfl rfl rfl
    have h2 := (((h.2.1 100 rfl (by norm_num)).2 2 rfl).2.2 10 rfl
      (by norm_num)).2 (by norm_num)
    rw [h2]
    rfl
  · have h := c4_max_validation_amended cfgC4b rfl rfl rfl rfl
    exact ((h.2.1 100 rfl (by norm_num)).2 2 rfl).2.1 (by norm_num) rfl
  · have h := c4_max_validation_amended cfgC4u rfl rfl rfl rfl
    exact (h.2.2 rfl 100 rfl (by norm_num)).1 rfl

/-- C5: metric extraction is total (the embedding is a function) and the two
metrics are independent: when no line matches the download pattern, or the
matched group does not parse as a float, the download metric alone is absent;
the upload metric depends only on the upload search; and on output containing
the lines `Download: 55.23 Mbit/s` and `Upload: 12.10 Mbit/s` extraction
yields exactly 55.23 and 12.10. -/
theorem c5_extraction_total_independent (output : String) :
    ((∀ l ∈ splitLines output, matchMetricLine "Download: " l = none) →
      (parseOutput output).1 = none)
    ∧ (∀ g, searchMetric "Download: " output = some g → parsePyFloat g = none →
      (parseOutput output).1 = none)
    ∧ (∀ output2, searchMetric "Upload: " output = searchMetric "Upload: " output2 →
      (parseOutput output).2 = (parseOutput output2).2)
    ∧ parseOutput "Testing download speed...\nDownload: 55.23 Mbit/s\nTesting upload speed...\nUpload: 12.10 Mbit/s"
      = (some (55.23 : ℚ), some (12.10 : ℚ)) := by
  refine ⟨?_, ?_, ?_, ?_⟩
  · intro h
    show Option.bind (searchMetric "Download: " output) parsePyFloat = none
    have hs : searchMetric "Download: " output = none := by
      unfold searchMetric
      exact List.findSome?_eq_none_iff.mpr h
    rw [hs]
    rfl
  · intro g hg hpf
    show Option.bind (searchMetric "Download: " output) parsePyFloat = none
    rw [hg]
    simpa using hpf
  · intro output2 h
    show Option.bind (searchMetric "Upload: " output) parsePyFloat =
      Option.bind (searchMetric "Upload: " output2) parsePyFloat
    rw [h]
  · have h : parseOutput "Testing download speed...\nDownload: 55.23 Mbit/s\nTesting upload speed...\nUpload: 12.10 Mbit/s"
        = (some (mkRat 5523 100), some (mkRat 1210 100)) := rfl
    rw [h]
    norm_num [Rat.mkRat_eq_div]

/-- Witness for C5 on an output with no metric lines: the download metric is
extracted as absent without any failure. -/
theorem c5_extraction_witness :
    (parseOutput "Retrieving speedtest.net configuration...").1 = none :=
  (c5_extraction_total_independent "Retrieving speedtest.net configuration...").1
    (by decide)

/-- C6 (code bug, source line 443): the download perfdata entry's floor field
is gated on the UPLOAD max, not on the download max. With `-m 100` (download
max only) the download floor is the NaN sentinel although the download max is
set, and with `-M 200` (upload max only) the download floor is 0.0 although
no download max is set; ceilings do follow the own direction's max. -/
theorem c6_floor_gated_on_upload_max :
    composePerfdata (some 50) none none (some 100) (some 20) none none none =
      ["\x27download_speed\x27=50.0Mbit/sec;NaN;NaN;NaN;100.0",
       "\x27upload_speed\x27=20.0Mbit/sec;NaN;NaN;NaN;NaN"]
    ∧ composePerfdata (some 50) none none none (some 20) none none (some 200) =
      ["\x27download_speed\x27=50.0Mbit/sec;NaN;NaN;0.0;NaN",
       "\x27upload_speed\x27=20.0Mbit/sec;NaN;NaN;0.0;200.0"] :=
  ⟨rfl, rfl⟩

/-- C7 (code bug, source line 403): both summary branches are gated on the
download speed, so with download present and upload absent the summary shows
`Upload speed: None Mbit/sec` instead of the `No upload speed` phrase, and
with download absent and upload present BOTH metrics are shown as `no speed`;
the perfdata part of the claim does hold (absent upload renders as NaN), and
the run with no thresholds completes with this summary. -/
theorem c7_upload_message_gated_on_download :
    composeOutputMessage (some 50) none 0 0 =
      "Download speed: 50.0 Mbit/sec, Upload speed: None Mbit/sec"
    ∧ composeOutputMessage none (some 20) 0 0 = "No download speed, No upload speed"
    ∧ composePerfdata (some 50) none none none none none none none =
      ["\x27download_speed\x27=50.0Mbit/sec;NaN;NaN;NaN;NaN",
       "\x27upload_speed\x27=NaN;NaN;NaN;NaN;NaN"]
    ∧ parseResults cfgDefault (some 50) none = Except.ok (icinga_exit 0
        (some "Download speed: 50.0 Mbit/sec, Upload speed: None Mbit/sec")
        ["\x27download_speed\x27=50.0Mbit/sec;NaN;NaN;NaN;NaN",
         "\x27upload_speed\x27=NaN;NaN;NaN;NaN;NaN"]) :=
  ⟨rfl, rfl, rfl, rfl⟩

/-- C8 (code bug, source line 307): with `-s 1234` the composed argument list
is the base command followed by the flag string and the server id appended as
an INTEGER, which `subprocess.run` rejects with a `TypeError` before any
process is spawned, so the external command is never run; the skip flags are
appended as strings in the documented order and lists without the server id
are accepted. -/
theorem c8_server_id_appended_as_int :
    composeSpeedtestCommand cfgServer1234 =
      [PyVal.str "speedtest-cli", PyVal.str "--server", PyVal.int 1234]
    ∧ subprocessRejects (composeSpeedtestCommand cfgServer1234) = true
    ∧ composeSpeedtestCommand cfgServer1234 ≠
      [PyVal.str "speedtest-cli", PyVal.str "--server", PyVal.str "1234"]
    ∧ composeSpeedtestCommand cfgSkipBoth =
      [PyVal.str "speedtest-cli", PyVal.str "--no-download", PyVal.str "--no-upload"]
    ∧ subprocessRejects (composeSpeedtestCommand cfgSkipBoth) = false
    ∧ composeSpeedtestCommand cfgDefault = [PyVal.str "speedtest-cli"] :=
  ⟨rfl, rfl, by decide, rfl, rfl, rfl⟩

/-- C9: the breach tests use strict less-than. With all four thresholds set
(valid: critical below warning, all positive), measured values exactly equal
to the warning thresholds yield level OK for both directions, and measured
values exactly equal to the critical thresholds yield only WARNING (from the
strict warning comparison), not CRITICAL: equality is never a breach. -/
theorem c9_strict_comparison (w c uw uc : ℚ) (cfg : CheckConfig)
    (hak : cfg.always_ok = false)
    (hdw : cfg.download_warning = some w) (hdc : cfg.download_critical = some c)
    (huw : cfg.upload_warning = some uw) (huc : cfg.upload_critical = some uc)
    (hc : 0 < c) (hcw : c < w) (huc0 : 0 < uc) (hucw : uc < uw) :
    evalLevels cfg (some w) (some uw) = Except.ok (0, 0, 0)
    ∧ evalLevels cfg (some c) (some uc) = Except.ok (1, 1, 1) := by
  have hw0 : w ≠ 0 := ne_of_gt (hc.trans hcw)
  have hc0 : c ≠ 0 := ne_of_gt hc
  have huw0 : uw ≠ 0 := ne_of_gt (huc0.trans hucw)
  have huc0' : uc ≠ 0 := ne_of_gt huc0
  constructor
  · have h1 : thresholdBreach cfg.download_warning (some w) = Except.ok false := by
      rw [hdw]
      unfold thresholdBreach
      rw [if_pos (by simp [pyTruthy, hw0])]
      simp [pyLt, lt_self_iff_false]
    have h2 : thresholdBreach cfg.upload_warning (some uw) = Except.ok false := by
      rw [huw]
      unfold thresholdBreach
      rw [if_pos (by simp [pyTruthy, huw0])]
      simp [pyLt, lt_self_iff_false]
    have h3 : thresholdBreach cfg.download_critical (some w) = Except.ok false := by
      rw [hdc]
      unfold thresholdBreach
      rw [if_pos (by simp [pyTruthy, hc0])]
      simp [pyLt, lt_asymm hcw]
    have h4 : thresholdBreach cfg.upload_critical (some uw) = Except.ok false := by
      rw [huc]
      unfold thresholdBreach
      rw [if_pos (by simp [pyTruthy, huc0'])]
      simp [pyLt, lt_asymm hucw]
    exact evalLevels_eq cfg (some w) (some uw) hak false false false false h1 h2 h3 h4
  · have h1 : thresholdBreach cfg.download_warning (some c) = Except.ok true := by
      rw [hdw]
      unfold thresholdBreach
      rw [if_pos (by simp [pyTruthy, hw0])]
      simp [pyLt, hcw]
    have h2 : thresholdBreach cfg.upload_warning (some uc) = Except.ok true := by
      rw [huw]
      unfold thresholdBreach
      rw [if_pos (by simp [pyTruthy, huw0])]
      simp [pyLt, hucw]
    have h3 : thresholdBreach cfg.download_critical (some c) = Except.ok false := by
      rw [hdc]
      unfold thresholdBreach
      rw [if_pos (by simp [pyTruthy, hc0])]
      simp [pyLt, lt_self_iff_false]
    have h4 : thresholdBreach cfg.upload_critical (some uc) = Except.ok false := by
      rw [huc]
      unfold thresholdBreach
      rw [if_pos (by simp [pyTruthy, huc0'])]
      simp [pyLt, lt_self_iff_false]
    exact evalLevels_eq cfg (some c) (some uc) hak true true false false h1 h2 h3 h4

/-- Witness for C9 at `-w 10 -c 2 -W 5 -C 1`: measured speeds equal to the
warning thresholds give OK, equal to the critical thresholds give only
WARNING. -/
theorem c9_strict_comparison_witness :
    evalLevels cfgC9 (some 10) (some 5) = Except.ok (0, 0, 0)
    ∧ evalLevels cfgC9 (some 2) (some 1) = Except.ok (1, 1, 1) :=
  c9_strict_comparison 10 2 5 1 cfgC9 rfl rfl rfl rfl rfl (by norm_num)
    (by norm_num) (by norm_num) (by norm_num)

/-- Counterexample for C10: a 0.0 upload speed alongside a truthy download is
NOT rendered with the `no speed` phrase in the summary — it is shown as the
numeric value `0.0`. -/
theorem c10_zero_speed_cex :
    composeOutputMessage (some 50) (some 0) 0 0 =
      "Download speed: 50.0 Mbit/sec, Upload speed: 0.0 Mbit/sec"
    ∧ composeOutputMessage (some 50) (some 0) 0 0 ≠
      "Download speed: 50.0 Mbit/sec, No upload speed" :=
  ⟨rfl, by decide⟩

/-- C10 (amended): a 0.0 speed is treated as absent at the UNKNOWN gate (two
0.0 speeds terminate the run exactly like two missing metrics) and in the
performance data (it renders as the NaN sentinel, never a numeric zero), and
a 0.0 DOWNLOAD speed makes the summary read exactly as when it is missing;
but because both summary branches are gated on the download value, a 0.0
upload speed next to a truthy download is rendered numerically as
`Upload speed: 0.0 Mbit/sec`, not as the `no speed` phrase (see the
counterexample). -/
theorem c10_zero_speed_amended (cfg : CheckConfig)
    (dw dc dm uw uc um us : Option ℚ) (dl ul : Nat) :
    parseResults cfg (some 0) (some 0) = parseResults cfg none none
    ∧ parseResults cfg (some 0) (some 0) =
      Except.ok (exitWithError "No download and upload speed recognised")
    ∧ composePerfdata (some 0) dw dc dm (some 0) uw uc um =
      composePerfdata none dw dc dm none uw uc um
    ∧ composeOutputMessage (some 0) us dl ul = composeOutputMessage none us dl ul :=
  ⟨rfl, rfl, rfl, rfl⟩
